import Mathlib

/-!
Shallow embedding of `src/Datalayer.ts` (Annisse Kattepension booking ledger).

Conventions of the embedding:
* `localStorage` state is passed explicitly: each stored collection is a
  `List` argument, the profile a single `Option KennelProfile`.
* JS numbers used as cat/room counts are modelled as `Nat` (they are counts;
  fractional or negative counts are outside the modelled domain).
* Optional / possibly-`undefined` TS fields are `Option` fields.
* JS `Date` parsing is modelled for the strict ISO calendar-date format
  `"YYYY-MM-DD"` (the format the module stores); any other string is
  modelled as an invalid date (`none`), matching `Number.isNaN(d.getTime())`.
* Nondeterministic inputs (`newId`, `new Date().toISOString()`) are passed
  as explicit arguments.
-/

namespace Dyrepension

/-! ### JS string comparison (UTF-16 code-unit lexicographic order)

`overlapsDay` in the source compares ISO date strings with `<=` / `<`.
For the ASCII strings involved, JS order is code-point lexicographic. -/

def jsStrLtList : List Char → List Char → Bool
  | [], [] => false
  | [], _ :: _ => true
  | _ :: _, [] => false
  | a :: as, b :: bs =>
    if a.toNat < b.toNat then true
    else if b.toNat < a.toNat then false
    else jsStrLtList as bs

def jsLt (a b : String) : Bool := jsStrLtList a.data b.data

/-- JS `a <= b` on strings is `!(b < a)`. -/
def jsLe (a b : String) : Bool := !(jsLt b a)

/-! ### Calendar dates

`eachDay` builds `new Date(iso)` values (UTC midnight for `"YYYY-MM-DD"`),
walks day by day with `setDate(getDate()+1)` and prints each day with
`toISOString().slice(0, 10)`.  We model a calendar date as `(year, month,
day)` and convert to/from a day number (days since 1970-01-01, the `Date`
time value divided by 86 400 000) with the standard civil-calendar
algorithms. -/

def isLeapYear (y : Nat) : Bool := y % 4 = 0 && (y % 100 ≠ 0 || y % 400 = 0)

def daysInMonth (y m : Nat) : Nat :=
  if m = 2 then (if isLeapYear y then 29 else 28)
  else if m = 4 ∨ m = 6 ∨ m = 9 ∨ m = 11 then 30
  else 31

def digitVal (c : Char) : Nat := c.toNat - 48

/-- Parse a strict ISO `"YYYY-MM-DD"` calendar date, validating the month
and the day of month; any other string yields `none` (an invalid `Date`,
`NaN` time value). -/
def parseDate (s : String) : Option (Nat × Nat × Nat) :=
  match s.data with
  | [y1, y2, y3, y4, h1, m1, m2, h2, d1, d2] =>
    if h1 = '-' && h2 = '-' &&
        ([y1, y2, y3, y4, m1, m2, d1, d2].all Char.isDigit) then
      let y := ((digitVal y1 * 10 + digitVal y2) * 10 + digitVal y3) * 10 + digitVal y4
      let m := digitVal m1 * 10 + digitVal m2
      let d := digitVal d1 * 10 + digitVal d2
      if 1 ≤ m && m ≤ 12 && 1 ≤ d && d ≤ daysInMonth y m then
        some (y, m, d)
      else none
    else none
  | _ => none

/-- Days since 1970-01-01 of a civil date (yields the `Date` time value in
days).  Internally the year is shifted by +400 so every intermediate stays
in `Nat`. -/
def daysFromCivil : Nat × Nat × Nat → Int
  | (y, m, d) =>
    let y1 := if m ≤ 2 then y + 399 else y + 400
    let era := y1 / 400
    let yoe := y1 % 400
    let mp := (m + 9) % 12
    let doy := (153 * mp + 2) / 5 + d - 1
    let doe := yoe * 365 + yoe / 4 - yoe / 100 + doy
    (era : Int) * 146097 + (doe : Int) - 865565

/-- Civil date of a day number (inverse of `daysFromCivil` on the years a
parsed date can produce). -/
def civilFromDays (z : Int) : Nat × Nat × Nat :=
  let z4 := (z + 865565).toNat
  let era := z4 / 146097
  let doe := z4 % 146097
  let yoe := (doe - doe / 1460 + doe / 36524 - doe / 146096) / 365
  let y := yoe + era * 400
  let doy := doe - (365 * yoe + yoe / 4 - yoe / 100)
  let mp := (5 * doy + 2) / 153
  let d := doy - (153 * mp + 2) / 5 + 1
  let m := if mp < 10 then mp + 3 else mp - 9
  ((if m ≤ 2 then y + 1 else y) - 400, m, d)

def pad2 (n : Nat) : String := if n < 10 then "0" ++ toString n else toString n

def pad4 (n : Nat) : String :=
  if n < 10 then "000" ++ toString n
  else if n < 100 then "00" ++ toString n
  else if n < 1000 then "0" ++ toString n
  else toString n

/-- `toISOString().slice(0, 10)` of a (valid, four-digit-year) civil date. -/
def formatDate : Nat × Nat × Nat → String
  | (y, m, d) => pad4 y ++ "-" ++ pad2 m ++ "-" ++ pad2 d

/-- `eachDay(startIso, endIso)`: inclusive start and end.  Returns `[]` when
either date fails to parse (`NaN` guard) and enumerates each calendar day
from start to end otherwise (the JS loop `while (d <= end)` stepping one
day at a time). -/
def eachDay (startIso endIso : String) : List String :=
  match parseDate startIso, parseDate endIso with
  | some s, some e =>
    let sN := daysFromCivil s
    let eN := daysFromCivil e
    if sN ≤ eN then
      (List.range (eN - sN + 1).toNat).map (fun i => formatDate (civilFromDays (sN + i)))
    else []
  | _, _ => []

/-! ### Data model -/

/-- Fixed kennel id (`KENNEL_ID`). -/
def KENNEL_ID : String := "annisse-001"

/-- `FIXED_DAILY_CAPACITY` – Annisse has 6 cages. -/
def FIXED_DAILY_CAPACITY : Nat := 6

/-- `BookingRecord`.  `status` is an open string in TS and may be absent in
legacy stored data, hence `Option String`; `source` likewise holds one of
`"owner" | "internal" | "other"`.  The TS index signature
(`[key: string]: any`) for ad-hoc extra fields is not modelled. -/
structure BookingRecord where
  id : String
  kennelId : String
  status : Option String
  createdAt : String
  source : Option String
  checkIn : String
  checkOut : String
  petName : Option String
  petNames : Option String
  catCount : Option Nat
  roomCount : Option Nat
  ownerName : Option String
  ownerPhone : Option String
  ownerEmail : Option String
  note : Option String
  indoorPet : Option String
  food : Option String
  medicine : Option String
  allowSocialMedia : Option Bool
deriving DecidableEq

/-- `CheckinRecord extends BookingRecord`; `cageId?: string | null` is
modelled as `Option String` (`none` for both `null` and absent). -/
structure CheckinRecord extends BookingRecord where
  cageId : Option String
deriving DecidableEq

/-- `KennelProfile`: `id` and `name` are required, the rest optional. -/
structure KennelProfile where
  id : String
  name : String
  tagline : Option String
  nightlyRate : Option Nat
  addressLine1 : Option String
  postalCode : Option String
  city : Option String
  phone : Option String
  email : Option String
  website : Option String
  shortDescription : Option String
  sellingPoints : Option String
  practicalInfo : Option String
  conditionsText : Option String
deriving DecidableEq

/-- `OwnerBookingRequestPayload` from the owner-facing form. -/
structure OwnerBookingRequestPayload where
  checkIn : String
  checkOut : String
  catCount : String
  roomCount : String
  ownerName : String
  ownerPhone : String
  ownerEmail : String
  petNames : String
  indoorPet : String
  food : String
  medicine : String
  allowSocialMedia : Bool
  note : String
deriving DecidableEq

/-- `CapacityDay`: derived daily occupancy summary. -/
structure CapacityDay where
  date : String
  booked : Nat
  capacity : Nat
  free : Nat
deriving DecidableEq

/-! ### localStorage helpers (`loadArray` / `loadObject`)

A raw read of one key can find no storage at all (`!isBrowser()`), a
missing key (`getItem` returned `null`), content on which `JSON.parse`
throws, or a parsed JSON value. -/

inductive StorageRead (α : Type) where
  | unavailable : StorageRead α
  | missing : StorageRead α
  | malformed : StorageRead α
  | value : α → StorageRead α

/-- A parsed JSON value as `loadArray` inspects it: an array of records or
anything else (`Array.isArray` fails). -/
inductive ParsedJson (α : Type) where
  | nonArray : ParsedJson α
  | array : List α → ParsedJson α

/-- `loadArray<T>(key)`: every failure path returns `[]`; a parsed
non-array also returns `[]`. Total — no error reaches the caller. -/
def loadArray {α : Type} (read : StorageRead (ParsedJson α)) : List α :=
  match read with
  | .value (.array xs) => xs
  | .value .nonArray => []
  | .unavailable => []
  | .missing => []
  | .malformed => []

/-- `loadObject<T>(key, fallback)`: every failure path returns the
fallback; a parsed value is cast and returned unvalidated. Total — no
error reaches the caller. -/
def loadObject {α : Type} (read : StorageRead α) (fallback : α) : α :=
  match read with
  | .value v => v
  | .unavailable => fallback
  | .missing => fallback
  | .malformed => fallback

/-! ### Booking / check-in operations

The stored collections are passed in and returned explicitly; a write
(`saveArray`) is modelled as returning the new collection. -/

/-- `listBookingsForKennel`: default absent `status` to `"pending"`, keep
records of the kennel (an empty `kennelId` is falsy in JS and keeps all). -/
def listBookingsForKennel (store : List BookingRecord) (kennelId : String) :
    List BookingRecord :=
  (store.map (fun b => { b with status := some (b.status.getD "pending") })).filter
    (fun b => kennelId = "" ∨ b.kennelId = kennelId)

/-- `listCheckinsForKennel`. -/
def listCheckinsForKennel (store : List CheckinRecord) (kennelId : String) :
    List CheckinRecord :=
  store.filter (fun c => kennelId = "" ∨ c.kennelId = kennelId)

/-- `setBookingStatus(id, status)`: update the first record whose `id`
matches (`findIndex`), return it; a miss returns `null` and writes
nothing.  Result is `(returned value, stored collection afterwards)`. -/
def setBookingStatus : List BookingRecord → String → String →
    Option BookingRecord × List BookingRecord
  | [], _, _ => (none, [])
  | b :: rest, id, st =>
    if b.id = id then
      (some { b with status := some st }, { b with status := some st } :: rest)
    else
      let p := setBookingStatus rest id st
      (p.1, b :: p.2)

/-- Result of `createCheckinFromBooking`: the returned stay plus both
stored collections afterwards. -/
structure CheckinCreateResult where
  record : CheckinRecord
  checkinStore : List CheckinRecord
  bookingStore : List BookingRecord
deriving DecidableEq

/-- `createCheckinFromBooking(booking, overrides = {})` with empty
overrides: copy the booking, give it the fresh id, force status
`"checked_in"` and `cageId = null`, append it to the check-in store, then
mark the source booking `"converted"` via `setBookingStatus`.  `newId("c")`
is passed in as `freshId`. -/
def createCheckinFromBooking (bookingStore : List BookingRecord)
    (checkinStore : List CheckinRecord) (booking : BookingRecord)
    (freshId : String) : CheckinCreateResult :=
  let record : CheckinRecord :=
    { toBookingRecord := { booking with id := freshId, status := some "checked_in" }
      cageId := none }
  { record := record
    checkinStore := checkinStore ++ [record]
    bookingStore := (setBookingStatus bookingStore booking.id "converted").2 }

/-- `checkOutCheckin(id)`: set the first matching record's status to
`"checked_out"`; a miss leaves the store untouched. -/
def checkOutCheckin : List CheckinRecord → String → List CheckinRecord
  | [], _ => []
  | c :: rest, id =>
    if c.id = id then { c with status := some "checked_out" } :: rest
    else c :: checkOutCheckin rest id

/-- `assignCageToCheckin(checkinId, cageId)`: update the first matching
record's `cageId`; a miss returns `null` and writes nothing. -/
def assignCageToCheckin : List CheckinRecord → String → Option String →
    Option CheckinRecord × List CheckinRecord
  | [], _, _ => (none, [])
  | c :: rest, id, cage =>
    if c.id = id then
      (some { c with cageId := cage }, { c with cageId := cage } :: rest)
    else
      let p := assignCageToCheckin rest id cage
      (p.1, c :: p.2)

/-! ### Profile operations -/

/-- `DEFAULT_PROFILE`. -/
def DEFAULT_PROFILE : KennelProfile :=
  { id := KENNEL_ID
    name := "Annisse Kattepension"
    tagline := some "Luksuriøs, familiedrevet kattepension"
    nightlyRate := some 325
    addressLine1 := some "Kattegangen 12"
    postalCode := some "3200"
    city := some "Annisse"
    phone := some "12 34 56 78"
    email := some "kontakt@annisse-kattepension.dk"
    website := some "https://annisse-kattepension.dk"
    shortDescription := some "Hos Annisse Kattepension får hver kat sit eget rummelige bur med adgang til både inde- og udeområde. Vi lægger vægt på ro, nærvær og gennemsigtighed – både for kat og ejer."
    sellingPoints := some "Familiedrevet og nærværende hverdag\nEget bur til hver kat – ingen tvangssammensætning\nInde- og udeområde efter kattens temperament\nMulighed for opdateringer med billeder/video\nRoligt miljø med fokus på trivsel"
    practicalInfo := some "Katten skal være vaccineret efter gældende anbefalinger.\nMedbring gerne eget foder, hvis katten er kræsen eller på specialkost.\nMedicin gives efter aftale og noteres i bookingformularen.\nInd- og udtjek sker som udgangspunkt efter aftale for at sikre ro i huset."
    conditionsText := some "Her kan du skrive dine egne betingelser for ophold i Annisse Kattepension. For eksempel betalingsbetingelser, afbestillingsregler, krav til vaccination, medicin, forsinket afhentning og andet praktisk.\n\nDen tekst du skriver her, vises direkte på siden “Betingelser” på hjemmesiden." }

/-- One field of the JS spread `{ ...DEFAULT_PROFILE, ...stored }`.  The
stored profile went through `JSON.stringify` / `JSON.parse`, which drops
`undefined` fields, so a field the saved profile did not set falls back to
the default and a set field overrides it. -/
def mergeField {α : Type} (dflt stored : Option α) : Option α :=
  match stored with
  | some v => some v
  | none => dflt

/-- `loadKennelProfile(kennelId)`: the full default when nothing is stored
or the stored id mismatches, otherwise the stored profile spread over the
default. -/
def loadKennelProfile (stored : Option KennelProfile) (kennelId : String) :
    KennelProfile :=
  match stored with
  | none => DEFAULT_PROFILE
  | some p =>
    if p.id ≠ kennelId then DEFAULT_PROFILE
    else
      { id := p.id
        name := p.name
        tagline := mergeField DEFAULT_PROFILE.tagline p.tagline
        nightlyRate := mergeField DEFAULT_PROFILE.nightlyRate p.nightlyRate
        addressLine1 := mergeField DEFAULT_PROFILE.addressLine1 p.addressLine1
        postalCode := mergeField DEFAULT_PROFILE.postalCode p.postalCode
        city := mergeField DEFAULT_PROFILE.city p.city
        phone := mergeField DEFAULT_PROFILE.phone p.phone
        email := mergeField DEFAULT_PROFILE.email p.email
        website := mergeField DEFAULT_PROFILE.website p.website
        shortDescription := mergeField DEFAULT_PROFILE.shortDescription p.shortDescription
        sellingPoints := mergeField DEFAULT_PROFILE.sellingPoints p.sellingPoints
        practicalInfo := mergeField DEFAULT_PROFILE.practicalInfo p.practicalInfo
        conditionsText := mergeField DEFAULT_PROFILE.conditionsText p.conditionsText }

/-- `saveKennelProfile(profile)`: stored state afterwards. -/
def saveKennelProfile (profile : KennelProfile) : Option KennelProfile :=
  some profile

/-! ### Owner booking request -/

/-- JS `Number(s)` on the strings this module feeds it, restricted to the
modelled `Nat` domain: `""` coerces to `0`, a digit string to its value,
anything else to `NaN` (`none`).  (Signed, fractional and exotic numeric
formats are outside the modelled domain of cat/room counts.) -/
def jsNumberNat (s : String) : Option Nat :=
  if s = "" then some 0
  else if s.data.all Char.isDigit then
    some (s.data.foldl (fun acc c => acc * 10 + digitVal c) 0)
  else none

/-- JS `x || 1` on a count: `NaN` (`none`) and `0` are falsy and give 1. -/
def jsCount (c : Option Nat) : Nat :=
  match c with
  | none => 1
  | some 0 => 1
  | some n => n

/-- `Number(payloadField || "1") || 1` — the count coercion in
`createBookingRequest`. -/
def coerceCount (s : String) : Nat :=
  jsCount (jsNumberNat (if s = "" then "1" else s))

/-- `createBookingRequest(payload, kennelId = KENNEL_ID)`: build a real
booking with status `"pending"`, source `"owner"` and append it.
`newId("b")` and `new Date().toISOString()` are passed in. -/
def createBookingRequest (store : List BookingRecord)
    (payload : OwnerBookingRequestPayload) (kennelId freshId createdAt : String) :
    BookingRecord × List BookingRecord :=
  let record : BookingRecord :=
    { id := freshId
      kennelId := kennelId
      createdAt := createdAt
      status := some "pending"
      source := some "owner"
      checkIn := payload.checkIn
      checkOut := payload.checkOut
      petName := some payload.petNames
      petNames := some payload.petNames
      catCount := some (coerceCount payload.catCount)
      roomCount := some (coerceCount payload.roomCount)
      ownerName := some payload.ownerName
      ownerPhone := some payload.ownerPhone
      ownerEmail := some payload.ownerEmail
      note := some payload.note
      indoorPet := some payload.indoorPet
      food := some payload.food
      medicine := some payload.medicine
      allowSocialMedia := some payload.allowSocialMedia }
  (record, store ++ [record])

/-! ### Capacity calculation -/

/-- `overlapsDay(startIso, endIso, dayIso)`: falsy (empty) endpoint gives
false, otherwise half-open `[start, end)` containment by JS string
comparison. -/
def overlapsDay (startIso endIso dayIso : String) : Bool :=
  if startIso = "" ∨ endIso = "" then false
  else jsLe startIso dayIso && jsLt dayIso endIso

/-- The check-out test in the capacity loop: raw status compared against
both spellings. -/
def isCheckedOutStay (s : CheckinRecord) : Bool :=
  decide (s.status = some "checked_out") || decide (s.status = some "checkedOut")

/-- `(b as any).status || "pending"`: `undefined` and `""` are falsy. -/
def effStatus (b : BookingRecord) : String :=
  match b.status with
  | none => "pending"
  | some s => if s = "" then "pending" else s

/-- Contribution of one stay to one day in the capacity loop. -/
def stayContrib (date : String) (stay : CheckinRecord) : Nat :=
  if isCheckedOutStay stay then 0
  else if overlapsDay stay.checkIn stay.checkOut date then jsCount stay.catCount
  else 0

/-- Contribution of one precheck booking to one day in the capacity loop. -/
def bookingContrib (date : String) (b : BookingRecord) : Nat :=
  if effStatus b ≠ "precheck" then 0
  else if overlapsDay b.checkIn b.checkOut date then jsCount b.catCount
  else 0

/-- The `booked` accumulator of `getCapacityForRange` for one day, before
capping: the checkins loop followed by the bookings loop. -/
def bookedUncapped (bookings : List BookingRecord) (checkins : List CheckinRecord)
    (date : String) : Nat :=
  (checkins.map (stayContrib date)).sum + (bookings.map (bookingContrib date)).sum

/-- `getCapacityForRange(kennelId, startDateIso, endDateIso)` over the two
stored collections. -/
def getCapacityForRange (bookingStore : List BookingRecord)
    (checkinStore : List CheckinRecord)
    (kennelId startDateIso endDateIso : String) : List CapacityDay :=
  let bookings := listBookingsForKennel bookingStore kennelId
  let checkins := listCheckinsForKennel checkinStore kennelId
  (eachDay startDateIso endDateIso).map (fun date =>
    let booked := bookedUncapped bookings checkins date
    let cappedBooked := min booked FIXED_DAILY_CAPACITY
    -- Math.max(0, capacity - cappedBooked) equals Nat subtraction here,
    -- since cappedBooked ≤ capacity.
    { date := date
      booked := cappedBooked
      capacity := FIXED_DAILY_CAPACITY
      free := FIXED_DAILY_CAPACITY - cappedBooked })

/-- `hasCapacityForBooking(kennelId, booking)`. -/
def hasCapacityForBooking (bookingStore : List BookingRecord)
    (checkinStore : List CheckinRecord) (kennelId : String)
    (booking : BookingRecord) : Bool :=
  if booking.checkIn = "" ∨ booking.checkOut = "" then false
  else
    let days := getCapacityForRange bookingStore checkinStore kennelId
      booking.checkIn booking.checkOut
    let needed := jsCount booking.catCount
    days.all (fun d => decide (d.booked + needed ≤ d.capacity))

/-- An all-fields-blank booking used to build concrete witnesses. -/
def blankBooking : BookingRecord :=
  { id := ""
    kennelId := KENNEL_ID
    status := none
    createdAt := ""
    source := none
    checkIn := ""
    checkOut := ""
    petName := none
    petNames := none
    catCount := none
    roomCount := none
    ownerName := none
    ownerPhone := none
    ownerEmail := none
    note := none
    indoorPet := none
    food := none
    medicine := none
    allowSocialMedia := none }

def blankCheckin : CheckinRecord :=
  { toBookingRecord := blankBooking, cageId := none }

/-- Concrete sample: an accepted (precheck) booking of 4 cats covering
2024-02-01 .. 2024-02-03 (the example from the capacity spec). -/
def sampleFebBooking : BookingRecord :=
  { blankBooking with
    id := "b-feb"
    status := some "precheck"
    checkIn := "2024-02-01"
    checkOut := "2024-02-03"
    catCount := some 4 }

/-- A stay that the capacity loop skips only because its status uses the
legacy spelling `"checkedOut"` (not the literal `"checked_out"`). -/
def legacyCheckedOutStay : CheckinRecord :=
  { blankCheckin with
    id := "c-legacy"
    status := some "checkedOut"
    checkIn := "2024-01-10"
    checkOut := "2024-01-12"
    catCount := some 1 }

/-- A stay covering 2024-01-10 .. 2024-01-12 that counts (checked in). -/
def sampleJanStay : CheckinRecord :=
  { blankCheckin with
    id := "c-jan"
    status := some "checked_in"
    checkIn := "2024-01-10"
    checkOut := "2024-01-12"
    catCount := some 2 }

/-- A precheck booking covering 2024-01-10 .. 2024-01-12. -/
def sampleJanBooking : BookingRecord :=
  { blankBooking with
    id := "b-jan"
    status := some "precheck"
    checkIn := "2024-01-10"
    checkOut := "2024-01-12"
    catCount := some 3 }

/-- A precheck booking of 6 cats occupying exactly 2024-01-06. -/
def sampleJan6Booking : BookingRecord :=
  { blankBooking with
    id := "b-jan6"
    status := some "precheck"
    checkIn := "2024-01-06"
    checkOut := "2024-01-07"
    catCount := some 6 }

/-- A candidate booking of 1 cat occupying exactly 2024-01-05 (checkout on
2024-01-06). -/
def candidateJan5Booking : BookingRecord :=
  { blankBooking with
    id := "b-cand"
    checkIn := "2024-01-05"
    checkOut := "2024-01-06"
    catCount := some 1 }

/-- An owner payload whose cat count field is the string `"0"`. -/
def zeroCatPayload : OwnerBookingRequestPayload :=
  { checkIn := "2024-03-01"
    checkOut := "2024-03-02"
    catCount := "0"
    roomCount := "1"
    ownerName := "Ann"
    ownerPhone := "12345678"
    ownerEmail := "ann@example.com"
    petNames := "Mis"
    indoorPet := "inde"
    food := ""
    medicine := ""
    allowSocialMedia := false
    note := "" }

/-- A candidate whose non-empty date strings are not parsable as dates. -/
def unparsableCandidate : BookingRecord :=
  { blankBooking with
    id := "b-unparsable"
    checkIn := "soon"
    checkOut := "later"
    catCount := some 2 }

/-- A candidate whose `checkIn` is the empty string. -/
def emptyCheckInCandidate : BookingRecord :=
  { blankBooking with
    id := "b-empty"
    checkOut := "2024-03-01" }

/-! ### Spec-side (claim) definitions

These definitions follow the words of the specification, to be compared
with the embedded code. -/

/-- Claim C1 as stated: a stay counts on a day when its status is not
`"checked_out"` and its half-open interval contains the day. -/
def specStayCountsStated (date : String) (s : CheckinRecord) : Bool :=
  decide (s.status ≠ some "checked_out") && overlapsDay s.checkIn s.checkOut date

/-- Amended C1: a stay counts when its status is neither `"checked_out"`
nor the legacy spelling `"checkedOut"`, and its interval contains the day. -/
def specStayCountsAmended (date : String) (s : CheckinRecord) : Bool :=
  decide (s.status ≠ some "checked_out") && decide (s.status ≠ some "checkedOut") &&
    overlapsDay s.checkIn s.checkOut date

/-- A booking counts on a day when its status is exactly `"precheck"` and
its half-open interval contains the day. -/
def specBookingCounts (date : String) (b : BookingRecord) : Bool :=
  decide (b.status = some "precheck") && overlapsDay b.checkIn b.checkOut date

/-- Claim C1's booked count, as stated over given collections: sum of
`catCount` (default 1 when absent or zero) over counting stays plus the
same sum over precheck bookings. -/
def specBookedStated (bookings : List BookingRecord) (checkins : List CheckinRecord)
    (date : String) : Nat :=
  ((checkins.filter (specStayCountsStated date)).map (fun s => jsCount s.catCount)).sum +
    ((bookings.filter (specBookingCounts date)).map (fun b => jsCount b.catCount)).sum

/-- Amended C1's booked count. -/
def specBookedAmended (bookings : List BookingRecord) (checkins : List CheckinRecord)
    (date : String) : Nat :=
  ((checkins.filter (specStayCountsAmended date)).map (fun s => jsCount s.catCount)).sum +
    ((bookings.filter (specBookingCounts date)).map (fun b => jsCount b.catCount)).sum

/-- The candidate's occupied days, per claim C2's "occupied range": the
days of the enumerated range its half-open `[checkIn, checkOut)` interval
actually contains (i.e. without the checkout day). -/
def occupiedDays (b : BookingRecord) : List String :=
  (eachDay b.checkIn b.checkOut).filter (fun d => overlapsDay b.checkIn b.checkOut d)

/-- Claim C7's coercion as stated: default 1 only when the string is empty
or unparsable; otherwise the parsed value (so `"0"` would give 0). -/
def specCoerceStated (s : String) : Nat :=
  if s = "" then 1
  else
    match jsNumberNat s with
    | none => 1
    | some n => n

/-- Amended C7's coercion: default 1 when the string is empty, unparsable,
or parses to zero (zero is falsy in JS, so `Number(s) || 1` replaces it). -/
def specCoerceAmended (s : String) : Nat :=
  if s = "" then 1
  else
    match jsNumberNat s with
    | none => 1
    | some 0 => 1
    | some n => n

/-! ### Helper lemmas -/

theorem jsCount_pos (c : Option Nat) : 1 ≤ jsCount c := by
  match c with
  | none => simp [jsCount]
  | some 0 => simp [jsCount]
  | some (n + 1) => simp [jsCount]

theorem effStatus_eq_precheck (b : BookingRecord) :
    (effStatus b = "precheck") ↔ b.status = some "precheck" := by
  match h : b.status with
  | none => simp [effStatus, h]
  | some s =>
    simp only [effStatus, h, Option.some.injEq]
    by_cases hs : s = ""
    · subst hs; simp
    · simp [hs]

/-- The checkins loop of `getCapacityForRange` computes the filtered sum of
the amended claim. -/
theorem stay_loop_eq_filter_sum (date : String) (l : List CheckinRecord) :
    (l.map (stayContrib date)).sum =
      ((l.filter (specStayCountsAmended date)).map (fun s => jsCount s.catCount)).sum := by
  induction l with
  | nil => rfl
  | cons hd tl ih =>
    simp only [List.map_cons, List.sum_cons, List.filter_cons]
    by_cases h1 : hd.status = some "checked_out"
    · simp [stayContrib, isCheckedOutStay, specStayCountsAmended, h1, ih]
    · by_cases h2 : hd.status = some "checkedOut"
      · simp [stayContrib, isCheckedOutStay, specStayCountsAmended, h1, h2, ih]
      · by_cases h3 : overlapsDay hd.checkIn hd.checkOut date
        · simp [stayContrib, isCheckedOutStay, specStayCountsAmended, h1, h2, h3, ih]
        · simp [stayContrib, isCheckedOutStay, specStayCountsAmended, h1, h2, h3, ih]

/-- The bookings loop of `getCapacityForRange` computes the claim's
filtered sum over precheck bookings. -/
theorem booking_loop_eq_filter_sum (date : String) (l : List BookingRecord) :
    (l.map (bookingContrib date)).sum =
      ((l.filter (specBookingCounts date)).map (fun b => jsCount b.catCount)).sum := by
  induction l with
  | nil => rfl
  | cons hd tl ih =>
    simp only [List.map_cons, List.sum_cons, List.filter_cons]
    by_cases h1 : hd.status = some "precheck"
    · have he : effStatus hd = "precheck" := (effStatus_eq_precheck hd).2 h1
      by_cases h3 : overlapsDay hd.checkIn hd.checkOut date
      · simp [bookingContrib, specBookingCounts, he, h1, h3, ih]
      · simp [bookingContrib, specBookingCounts, he, h1, h3, ih]
    · have he : ¬ effStatus hd = "precheck" := fun h => h1 ((effStatus_eq_precheck hd).1 h)
      simp [bookingContrib, specBookingCounts, he, h1, ih]

/-- When the first stored record whose id matches is `b` itself,
`setBookingStatus` returns `b` with the new status and that updated record
is in the stored collection afterwards. -/
theorem setBookingStatus_of_find (l : List BookingRecord) (b : BookingRecord)
    (st : String) (h : l.find? (fun r => r.id == b.id) = some b) :
    (setBookingStatus l b.id st).1 = some { b with status := some st } ∧
      { b with status := some st } ∈ (setBookingStatus l b.id st).2 := by
  induction l with
  | nil => simp [List.find?] at h
  | cons hd tl ih =>
    by_cases hp : hd.id = b.id
    · rw [List.find?_cons_of_pos _ (by simpa using hp)] at h
      have hb : hd = b := by simpa using h
      subst hb
      simp [setBookingStatus, hp]
    · rw [List.find?_cons_of_neg _ (by simpa using hp)] at h
      have hrec := ih h
      simp only [setBookingStatus, if_neg hp]
      exact ⟨hrec.1, List.mem_cons_of_mem _ hrec.2⟩

/-- A `setBookingStatus` miss returns `null` and leaves the collection
unchanged. -/
theorem setBookingStatus_miss (l : List BookingRecord) (id st : String)
    (h : ∀ r ∈ l, r.id ≠ id) : setBookingStatus l id st = (none, l) := by
  induction l with
  | nil => rfl
  | cons hd tl ih =>
    have hhd : hd.id ≠ id := h hd (List.mem_cons_self hd tl)
    have htl := ih (fun r hr => h r (List.mem_cons_of_mem hd hr))
    simp [setBookingStatus, hhd, htl]

/-- A `checkOutCheckin` miss leaves the collection unchanged. -/
theorem checkOutCheckin_miss (l : List CheckinRecord) (id : String)
    (h : ∀ r ∈ l, r.id ≠ id) : checkOutCheckin l id = l := by
  induction l with
  | nil => rfl
  | cons hd tl ih =>
    have hhd : hd.id ≠ id := h hd (List.mem_cons_self hd tl)
    have htl := ih (fun r hr => h r (List.mem_cons_of_mem hd hr))
    simp [checkOutCheckin, hhd, htl]

/-- An `assignCageToCheckin` miss returns `null` and leaves the collection
unchanged. -/
theorem assignCageToCheckin_miss (l : List CheckinRecord) (id : String)
    (cage : Option String) (h : ∀ r ∈ l, r.id ≠ id) :
    assignCageToCheckin l id cage = (none, l) := by
  induction l with
  | nil => rfl
  | cons hd tl ih =>
    have hhd : hd.id ≠ id := h hd (List.mem_cons_self hd tl)
    have htl := ih (fun r hr => h r (List.mem_cons_of_mem hd hr))
    simp [assignCageToCheckin, hhd, htl]

/-! ### Claim theorems -/

/-- C1 (counterexample): the claim's breakdown — stays count whenever their
status is not `"checked_out"` — fails on the code.  On 2024-01-10, a day
enumerated by `getCapacityForRange("2024-01-10", "2024-01-10")`, a stored
stay with status `"checkedOut"` covering that day makes the claim's sum 1,
but the code's (uncapped) booked count is 0 — the loop also skips the
spelling `"checkedOut"` — and the returned day shows booked 0. -/
theorem C1_claim_counterexample :
    "2024-01-10" ∈ eachDay "2024-01-10" "2024-01-10" ∧
    bookedUncapped (listBookingsForKennel [] KENNEL_ID)
        (listCheckinsForKennel [legacyCheckedOutStay] KENNEL_ID) "2024-01-10" = 0 ∧
    specBookedStated (listBookingsForKennel [] KENNEL_ID)
        (listCheckinsForKennel [legacyCheckedOutStay] KENNEL_ID) "2024-01-10" = 1 ∧
    getCapacityForRange [] [legacyCheckedOutStay] KENNEL_ID "2024-01-10" "2024-01-10" =
      [⟨"2024-01-10", 0, 6, 6⟩] := by
  decide

/-- C1 (amended): for every tenant id, every day enumerated by
`getCapacityForRange`, and every stored collection of bookings and stays,
the day's (uncapped) booked count equals the sum of `catCount` (default 1
when absent or zero) over all stays whose status is neither `"checked_out"`
nor `"checkedOut"` and whose `[checkIn, checkOut)` interval contains the
day, plus the same sum over all bookings whose status is exactly
`"precheck"` and whose interval contains the day; and no reservation is
counted from both collections on the same day because conversion removes
the booking from `"precheck"`: `createCheckinFromBooking` rewrites the
source booking through `setBookingStatus(id, "converted")`, and a booking
so updated contributes 0 to every day. -/
theorem C1_booked_breakdown :
    (∀ (bs : List BookingRecord) (cs : List CheckinRecord) (kId s e d : String),
        d ∈ eachDay s e →
        bookedUncapped (listBookingsForKennel bs kId) (listCheckinsForKennel cs kId) d =
          specBookedAmended (listBookingsForKennel bs kId) (listCheckinsForKennel cs kId) d) ∧
    (∀ (bs : List BookingRecord) (cs : List CheckinRecord) (b : BookingRecord)
        (fid : String),
        (createCheckinFromBooking bs cs b fid).bookingStore =
          (setBookingStatus bs b.id "converted").2) ∧
    (∀ (store : List BookingRecord) (id d : String) (r : BookingRecord),
        (setBookingStatus store id "converted").1 = some r → bookingContrib d r = 0) := by
  refine ⟨?_, ?_, ?_⟩
  · intro bs cs kId s e d _hd
    unfold bookedUncapped specBookedAmended
    rw [stay_loop_eq_filter_sum, booking_loop_eq_filter_sum]
  · intro bs cs b fid
    rfl
  · intro store id d r h
    induction store with
    | nil => simp [setBookingStatus] at h
    | cons hd tl ih =>
      by_cases hp : hd.id = id
      · simp only [setBookingStatus, if_pos hp, Option.some.injEq] at h
        subst h
        simp [bookingContrib, effStatus]
      · simp only [setBookingStatus, if_neg hp] at h
        exact ih h

/-- Witness for C1: the breakdown and the conversion effect at concrete
inputs. -/
theorem C1_booked_breakdown_witness :
    bookedUncapped (listBookingsForKennel [sampleFebBooking] KENNEL_ID)
        (listCheckinsForKennel [] KENNEL_ID) "2024-02-01" =
      specBookedAmended (listBookingsForKennel [sampleFebBooking] KENNEL_ID)
        (listCheckinsForKennel [] KENNEL_ID) "2024-02-01" ∧
    bookingContrib "2024-02-01" { sampleFebBooking with status := some "converted" } = 0 :=
  ⟨C1_booked_breakdown.1 [sampleFebBooking] [] KENNEL_ID "2024-02-01" "2024-02-03"
      "2024-02-01" (by decide),
    C1_booked_breakdown.2.2 [sampleFebBooking] "b-feb" "2024-02-01"
      { sampleFebBooking with status := some "converted" } (by decide)⟩

/-- C3: a stay or booking with `checkIn = "2024-01-10"` and
`checkOut = "2024-01-12"` that is eligible to count (a stay the capacity
loop does not skip as checked out; a booking in status `"precheck"`)
contributes its cat count to 2024-01-10 and 2024-01-11 and nothing to
2024-01-12; and with capacity 6 and one stored precheck booking of 4 cats
covering 2024-02-01 .. 2024-02-03, `getCapacityForRange` over that range
yields booked 4 / free 2 on the first two days and booked 0 / free 6 on
2024-02-03. -/
theorem C3_interval_semantics :
    (∀ s : CheckinRecord, s.checkIn = "2024-01-10" → s.checkOut = "2024-01-12" →
        isCheckedOutStay s = false →
        stayContrib "2024-01-10" s = jsCount s.catCount ∧
        stayContrib "2024-01-11" s = jsCount s.catCount ∧
        stayContrib "2024-01-12" s = 0) ∧
    (∀ b : BookingRecord, b.checkIn = "2024-01-10" → b.checkOut = "2024-01-12" →
        b.status = some "precheck" →
        bookingContrib "2024-01-10" b = jsCount b.catCount ∧
        bookingContrib "2024-01-11" b = jsCount b.catCount ∧
        bookingContrib "2024-01-12" b = 0) ∧
    getCapacityForRange [sampleFebBooking] [] KENNEL_ID "2024-02-01" "2024-02-03" =
      [⟨"2024-02-01", 4, 6, 2⟩, ⟨"2024-02-02", 4, 6, 2⟩, ⟨"2024-02-03", 0, 6, 6⟩] := by
  refine ⟨?_, ?_, by decide⟩
  · intro s h1 h2 h3
    refine ⟨?_, ?_, ?_⟩ <;>
      simp [stayContrib, h1, h2, h3,
        show overlapsDay "2024-01-10" "2024-01-12" "2024-01-10" = true from by decide,
        show overlapsDay "2024-01-10" "2024-01-12" "2024-01-11" = true from by decide,
        show overlapsDay "2024-01-10" "2024-01-12" "2024-01-12" = false from by decide]
  · intro b h1 h2 h3
    have he : effStatus b = "precheck" := (effStatus_eq_precheck b).2 h3
    refine ⟨?_, ?_, ?_⟩ <;>
      simp [bookingContrib, h1, h2, he,
        show overlapsDay "2024-01-10" "2024-01-12" "2024-01-10" = true from by decide,
        show overlapsDay "2024-01-10" "2024-01-12" "2024-01-11" = true from by decide,
        show overlapsDay "2024-01-10" "2024-01-12" "2024-01-12" = false from by decide]

/-- Witness for C3 at concrete stay and booking records. -/
theorem C3_interval_semantics_witness :
    stayContrib "2024-01-10" sampleJanStay = jsCount sampleJanStay.catCount ∧
    stayContrib "2024-01-12" sampleJanStay = 0 ∧
    bookingContrib "2024-01-10" sampleJanBooking = jsCount sampleJanBooking.catCount :=
  ⟨(C3_interval_semantics.1 sampleJanStay (by decide) (by decide) (by decide)).1,
    (C3_interval_semantics.1 sampleJanStay (by decide) (by decide) (by decide)).2.2,
    (C3_interval_semantics.2.1 sampleJanBooking (by decide) (by decide) (by decide)).1⟩

/-- C4: every `CapacityDay` returned by `getCapacityForRange` has
`capacity = FIXED_DAILY_CAPACITY`, `booked` capped at capacity, free
between 0 and capacity, and `free = capacity - booked` after capping. -/
theorem C4_capacity_day_bounds :
    ∀ (bs : List BookingRecord) (cs : List CheckinRecord) (kId s e : String),
      ∀ day ∈ getCapacityForRange bs cs kId s e,
        day.capacity = FIXED_DAILY_CAPACITY ∧ day.booked ≤ day.capacity ∧
          day.free ≤ day.capacity ∧ day.booked + day.free = day.capacity := by
  intro bs cs kId s e day hmem
  simp only [getCapacityForRange, List.mem_map] at hmem
  obtain ⟨date, _, rfl⟩ := hmem
  refine ⟨rfl, ?_, ?_, ?_⟩ <;> dsimp only [FIXED_DAILY_CAPACITY] <;> omega

/-- Witness for C4 on a concrete returned day. -/
theorem C4_capacity_day_bounds_witness :
    (CapacityDay.mk "2024-02-01" 4 6 2).capacity = FIXED_DAILY_CAPACITY ∧
    (CapacityDay.mk "2024-02-01" 4 6 2).booked ≤ (CapacityDay.mk "2024-02-01" 4 6 2).capacity ∧
    (CapacityDay.mk "2024-02-01" 4 6 2).free ≤ (CapacityDay.mk "2024-02-01" 4 6 2).capacity ∧
    (CapacityDay.mk "2024-02-01" 4 6 2).booked + (CapacityDay.mk "2024-02-01" 4 6 2).free =
      (CapacityDay.mk "2024-02-01" 4 6 2).capacity :=
  C4_capacity_day_bounds [sampleFebBooking] [] KENNEL_ID "2024-02-01" "2024-02-03"
    (CapacityDay.mk "2024-02-01" 4 6 2) (by decide)

/-- C2 (counterexample): `hasCapacityForBooking` can return false although
no day of the candidate's occupied range `[checkIn, checkOut)` would
exceed capacity.  The candidate occupies only 2024-01-05 (booked 0 there),
but the gate also checks the candidate's checkout day 2024-01-06, which a
stored precheck booking fills to 6, so the gate rejects — refuting the
claim's "false if and only if some day in the candidate's occupied range
would be pushed above capacity". -/
theorem C2_claim_counterexample :
    hasCapacityForBooking [sampleJan6Booking] [] KENNEL_ID candidateJan5Booking = false ∧
    occupiedDays candidateJan5Booking = ["2024-01-05"] ∧
    (occupiedDays candidateJan5Booking).all (fun d =>
        decide (bookedUncapped (listBookingsForKennel [sampleJan6Booking] KENNEL_ID)
            (listCheckinsForKennel [] KENNEL_ID) d +
          jsCount candidateJan5Booking.catCount ≤ FIXED_DAILY_CAPACITY)) = true := by
  decide

/-- The per-day admission test over a list of days, uncapped: with a
needed count of at least 1, capping the booked count at capacity does not
change the gate's verdict. -/
theorem capacity_gate_all_iff (B : List BookingRecord) (C : List CheckinRecord)
    (L : List String) (n : Nat) (hn : 1 ≤ n) :
    ((L.map (fun date =>
        ({ date := date
           booked := min (bookedUncapped B C date) FIXED_DAILY_CAPACITY
           capacity := FIXED_DAILY_CAPACITY
           free := FIXED_DAILY_CAPACITY -
             min (bookedUncapped B C date) FIXED_DAILY_CAPACITY } : CapacityDay))).all
      (fun d => decide (d.booked + n ≤ d.capacity)) = false) ↔
    ∃ d ∈ L, FIXED_DAILY_CAPACITY < bookedUncapped B C d + n := by
  induction L with
  | nil => simp
  | cons hd tl ih =>
    simp only [List.map_cons, List.all_cons, Bool.and_eq_false_iff, ih, List.mem_cons]
    constructor
    · rintro (h | ⟨d, hd2, hgt⟩)
      · refine ⟨hd, Or.inl rfl, ?_⟩
        simp only [decide_eq_false_iff_not] at h
        dsimp only [FIXED_DAILY_CAPACITY] at h ⊢
        omega
      · exact ⟨d, Or.inr hd2, hgt⟩
    · rintro ⟨d, (rfl | hd2), hgt⟩
      · left
        simp only [decide_eq_false_iff_not]
        dsimp only [FIXED_DAILY_CAPACITY] at hgt ⊢
        omega
      · exact Or.inr ⟨d, hd2, hgt⟩

/-- C2 (amended): for every tenant id and candidate booking with non-empty
`checkIn` and `checkOut`, `hasCapacityForBooking` returns false if and
only if some day of the inclusive enumerated range `[checkIn, checkOut]` —
including the checkout day itself — would have its (uncapped) booked count
pushed above the fixed daily capacity by adding the candidate's pet count
(default 1); otherwise it returns true. -/
theorem C2_admission_gate :
    ∀ (bs : List BookingRecord) (cs : List CheckinRecord) (kId : String)
      (b : BookingRecord), b.checkIn ≠ "" → b.checkOut ≠ "" →
      (hasCapacityForBooking bs cs kId b = false ↔
        ∃ d ∈ eachDay b.checkIn b.checkOut,
          FIXED_DAILY_CAPACITY <
            bookedUncapped (listBookingsForKennel bs kId)
              (listCheckinsForKennel cs kId) d + jsCount b.catCount) := by
  intro bs cs kId b h1 h2
  have hcond : ¬(b.checkIn = "" ∨ b.checkOut = "") := by tauto
  unfold hasCapacityForBooking
  rw [if_neg hcond]
  simp only [getCapacityForRange]
  exact capacity_gate_all_iff (listBookingsForKennel bs kId)
    (listCheckinsForKennel cs kId) (eachDay b.checkIn b.checkOut)
    (jsCount b.catCount) (jsCount_pos b.catCount)

/-- Witness for C2 at a concrete store and candidate. -/
theorem C2_admission_gate_witness :
    hasCapacityForBooking [sampleJan6Booking] [] KENNEL_ID candidateJan5Booking = false ↔
      ∃ d ∈ eachDay candidateJan5Booking.checkIn candidateJan5Booking.checkOut,
        FIXED_DAILY_CAPACITY <
          bookedUncapped (listBookingsForKennel [sampleJan6Booking] KENNEL_ID)
            (listCheckinsForKennel [] KENNEL_ID) d + jsCount candidateJan5Booking.catCount :=
  C2_admission_gate [sampleJan6Booking] [] KENNEL_ID candidateJan5Booking
    (by decide) (by decide)

/-- C5: for every booking whose id first matches itself in the stored
bookings collection and empty overrides, `createCheckinFromBooking`
appends a new stay copying the booking's fields but carrying the fresh id,
status `"checked_in"` and `cageId` null, and leaves the original booking
stored with status `"converted"`; the booking-status update is performed
whenever the stay write succeeds (writes always succeed in this model; the
update is unconditional after the stay write). -/
theorem C5_createCheckin_effects :
    ∀ (bs : List BookingRecord) (cs : List CheckinRecord) (b : BookingRecord)
      (fid : String),
      bs.find? (fun r => r.id == b.id) = some b →
      (createCheckinFromBooking bs cs b fid).checkinStore =
        cs ++ [(createCheckinFromBooking bs cs b fid).record] ∧
      (createCheckinFromBooking bs cs b fid).record.id = fid ∧
      (createCheckinFromBooking bs cs b fid).record.status = some "checked_in" ∧
      (createCheckinFromBooking bs cs b fid).record.cageId = none ∧
      (createCheckinFromBooking bs cs b fid).record.toBookingRecord =
        { b with id := fid, status := some "checked_in" } ∧
      (createCheckinFromBooking bs cs b fid).bookingStore =
        (setBookingStatus bs b.id "converted").2 ∧
      (setBookingStatus bs b.id "converted").1 =
        some { b with status := some "converted" } ∧
      { b with status := some "converted" } ∈
        (createCheckinFromBooking bs cs b fid).bookingStore := by
  intro bs cs b fid hfind
  have h := setBookingStatus_of_find bs b "converted" hfind
  exact ⟨rfl, rfl, rfl, rfl, rfl, rfl, h.1, h.2⟩

/-- Witness for C5 on a one-booking store. -/
theorem C5_createCheckin_effects_witness :
    (setBookingStatus [sampleJanBooking] sampleJanBooking.id "converted").1 =
      some { sampleJanBooking with status := some "converted" } ∧
    { sampleJanBooking with status := some "converted" } ∈
      (createCheckinFromBooking [sampleJanBooking] [] sampleJanBooking "c-new").bookingStore :=
  ⟨(C5_createCheckin_effects [sampleJanBooking] [] sampleJanBooking "c-new"
      (by decide)).2.2.2.2.2.2.1,
    (C5_createCheckin_effects [sampleJanBooking] [] sampleJanBooking "c-new"
      (by decide)).2.2.2.2.2.2.2⟩

/-- C6: saving a profile and loading it back under its own id returns the
saved value on every explicitly-set field and the hard-coded default on
every unset field; loading with nothing stored, or with a stored profile
whose id differs from the requested one, returns the full default
profile. -/
theorem mergeField_of_set {α : Type} (d s : Option α) (h : s ≠ none) :
    mergeField d s = s := by
  cases s with
  | some v => rfl
  | none => exact absurd rfl h

theorem C6_profile_roundtrip :
    (∀ p : KennelProfile,
        (loadKennelProfile (saveKennelProfile p) p.id).id = p.id ∧
        (loadKennelProfile (saveKennelProfile p) p.id).name = p.name ∧
        (p.tagline ≠ none →
          (loadKennelProfile (saveKennelProfile p) p.id).tagline = p.tagline) ∧
        (p.tagline = none →
          (loadKennelProfile (saveKennelProfile p) p.id).tagline = DEFAULT_PROFILE.tagline) ∧
        (p.nightlyRate ≠ none →
          (loadKennelProfile (saveKennelProfile p) p.id).nightlyRate = p.nightlyRate) ∧
        (p.nightlyRate = none →
          (loadKennelProfile (saveKennelProfile p) p.id).nightlyRate = DEFAULT_PROFILE.nightlyRate) ∧
        (p.addressLine1 ≠ none →
          (loadKennelProfile (saveKennelProfile p) p.id).addressLine1 = p.addressLine1) ∧
        (p.addressLine1 = none →
          (loadKennelProfile (saveKennelProfile p) p.id).addressLine1 = DEFAULT_PROFILE.addressLine1) ∧
        (p.postalCode ≠ none →
          (loadKennelProfile (saveKennelProfile p) p.id).postalCode = p.postalCode) ∧
        (p.postalCode = none →
          (loadKennelProfile (saveKennelProfile p) p.id).postalCode = DEFAULT_PROFILE.postalCode) ∧
        (p.city ≠ none →
          (loadKennelProfile (saveKennelProfile p) p.id).city = p.city) ∧
        (p.city = none →
          (loadKennelProfile (saveKennelProfile p) p.id).city = DEFAULT_PROFILE.city) ∧
        (p.phone ≠ none →
          (loadKennelProfile (saveKennelProfile p) p.id).phone = p.phone) ∧
        (p.phone = none →
          (loadKennelProfile (saveKennelProfile p) p.id).phone = DEFAULT_PROFILE.phone) ∧
        (p.email ≠ none →
          (loadKennelProfile (saveKennelProfile p) p.id).email = p.email) ∧
        (p.email = none →
          (loadKennelProfile (saveKennelProfile p) p.id).email = DEFAULT_PROFILE.email) ∧
        (p.website ≠ none →
          (loadKennelProfile (saveKennelProfile p) p.id).website = p.website) ∧
        (p.website = none →
          (loadKennelProfile (saveKennelProfile p) p.id).website = DEFAULT_PROFILE.website) ∧
        (p.shortDescription ≠ none →
          (loadKennelProfile (saveKennelProfile p) p.id).shortDescription = p.shortDescription) ∧
        (p.shortDescription = none →
          (loadKennelProfile (saveKennelProfile p) p.id).shortDescription = DEFAULT_PROFILE.shortDescription) ∧
        (p.sellingPoints ≠ none →
          (loadKennelProfile (saveKennelProfile p) p.id).sellingPoints = p.sellingPoints) ∧
        (p.sellingPoints = none →
          (loadKennelProfile (saveKennelProfile p) p.id).sellingPoints = DEFAULT_PROFILE.sellingPoints) ∧
        (p.practicalInfo ≠ none →
          (loadKennelProfile (saveKennelProfile p) p.id).practicalInfo = p.practicalInfo) ∧
        (p.practicalInfo = none →
          (loadKennelProfile (saveKennelProfile p) p.id).practicalInfo = DEFAULT_PROFILE.practicalInfo) ∧
        (p.conditionsText ≠ none →
          (loadKennelProfile (saveKennelProfile p) p.id).conditionsText = p.conditionsText) ∧
        (p.conditionsText = none →
          (loadKennelProfile (saveKennelProfile p) p.id).conditionsText = DEFAULT_PROFILE.conditionsText)) ∧
    (∀ kId : String, loadKennelProfile none kId = DEFAULT_PROFILE) ∧
    (∀ (p : KennelProfile) (kId : String), p.id ≠ kId →
        loadKennelProfile (some p) kId = DEFAULT_PROFILE) := by
  have hload : ∀ p : KennelProfile,
      loadKennelProfile (saveKennelProfile p) p.id =
        { id := p.id
          name := p.name
          tagline := mergeField DEFAULT_PROFILE.tagline p.tagline
          nightlyRate := mergeField DEFAULT_PROFILE.nightlyRate p.nightlyRate
          addressLine1 := mergeField DEFAULT_PROFILE.addressLine1 p.addressLine1
          postalCode := mergeField DEFAULT_PROFILE.postalCode p.postalCode
          city := mergeField DEFAULT_PROFILE.city p.city
          phone := mergeField DEFAULT_PROFILE.phone p.phone
          email := mergeField DEFAULT_PROFILE.email p.email
          website := mergeField DEFAULT_PROFILE.website p.website
          shortDescription := mergeField DEFAULT_PROFILE.shortDescription p.shortDescription
          sellingPoints := mergeField DEFAULT_PROFILE.sellingPoints p.sellingPoints
          practicalInfo := mergeField DEFAULT_PROFILE.practicalInfo p.practicalInfo
          conditionsText := mergeField DEFAULT_PROFILE.conditionsText p.conditionsText } := by
    intro p
    simp only [loadKennelProfile, saveKennelProfile]
    rw [if_neg (by simp)]
  refine ⟨?_, fun kId => rfl, ?_⟩
  · intro p
    rw [hload p]
    exact ⟨rfl, rfl,
      fun h => mergeField_of_set _ _ h, fun h => by rw [h]; rfl,
      fun h => mergeField_of_set _ _ h, fun h => by rw [h]; rfl,
      fun h => mergeField_of_set _ _ h, fun h => by rw [h]; rfl,
      fun h => mergeField_of_set _ _ h, fun h => by rw [h]; rfl,
      fun h => mergeField_of_set _ _ h, fun h => by rw [h]; rfl,
      fun h => mergeField_of_set _ _ h, fun h => by rw [h]; rfl,
      fun h => mergeField_of_set _ _ h, fun h => by rw [h]; rfl,
      fun h => mergeField_of_set _ _ h, fun h => by rw [h]; rfl,
      fun h => mergeField_of_set _ _ h, fun h => by rw [h]; rfl,
      fun h => mergeField_of_set _ _ h, fun h => by rw [h]; rfl,
      fun h => mergeField_of_set _ _ h, fun h => by rw [h]; rfl,
      fun h => mergeField_of_set _ _ h, fun h => by rw [h]; rfl⟩
  · intro p kId hne
    simp only [loadKennelProfile]
    rw [if_pos hne]

/-- Witness for C6: an id mismatch yields the full default profile. -/
theorem C6_profile_roundtrip_witness :
    loadKennelProfile (some DEFAULT_PROFILE) "other-kennel" = DEFAULT_PROFILE :=
  C6_profile_roundtrip.2.2 DEFAULT_PROFILE "other-kennel" (by decide)

theorem coerceCount_eq_spec (s : String) : coerceCount s = specCoerceAmended s := by
  by_cases h : s = ""
  · subst h; decide
  · unfold coerceCount specCoerceAmended jsCount
    rw [if_neg h, if_neg h]

/-- C7 (counterexample): the claim says the counts default to 1 only when
the payload string is empty or unparsable, so `"0"` — which parses as the
number 0 — should be stored as 0.  The code stores 1: `Number("0")` is 0,
which is falsy, so `|| 1` replaces it. -/
theorem C7_claim_counterexample :
    (createBookingRequest [] zeroCatPayload KENNEL_ID "b1" "ts").1.catCount = some 1 ∧
    specCoerceStated zeroCatPayload.catCount = 0 ∧
    (createBookingRequest [] zeroCatPayload KENNEL_ID "b1" "ts").1.catCount ≠
      some (specCoerceStated zeroCatPayload.catCount) := by
  decide

/-- C7 (amended): `createBookingRequest` creates and returns a booking with
status `"pending"` and source `"owner"`, appended to the stored
collection, with `catCount` and `roomCount` coerced from the payload's
strings and defaulting to 1 when the string is empty, unparsable as a
number, or parses to zero. -/
theorem C7_booking_request :
    ∀ (store : List BookingRecord) (p : OwnerBookingRequestPayload)
      (kId fid ts : String),
      (createBookingRequest store p kId fid ts).1.status = some "pending" ∧
      (createBookingRequest store p kId fid ts).1.source = some "owner" ∧
      (createBookingRequest store p kId fid ts).1.catCount =
        some (specCoerceAmended p.catCount) ∧
      (createBookingRequest store p kId fid ts).1.roomCount =
        some (specCoerceAmended p.roomCount) ∧
      (createBookingRequest store p kId fid ts).2 =
        store ++ [(createBookingRequest store p kId fid ts).1] := by
  intro store p kId fid ts
  refine ⟨rfl, rfl, ?_, ?_, rfl⟩
  · show some (coerceCount p.catCount) = some (specCoerceAmended p.catCount)
    rw [coerceCount_eq_spec]
  · show some (coerceCount p.roomCount) = some (specCoerceAmended p.roomCount)
    rw [coerceCount_eq_spec]

/-- C8: a storage read through `loadArray` whose underlying store is
unavailable, whose key is missing, or whose content fails to parse returns
the empty collection; the same failures in `loadObject` return the
provided fallback.  Both are total functions of the read outcome — no
error propagates to the caller. -/
theorem C8_read_failures_degrade :
    (∀ α : Type, @loadArray α StorageRead.unavailable = [] ∧
        @loadArray α StorageRead.missing = [] ∧
        @loadArray α StorageRead.malformed = []) ∧
    (∀ (α : Type) (fallback : α), loadObject StorageRead.unavailable fallback = fallback ∧
        loadObject StorageRead.missing fallback = fallback ∧
        loadObject StorageRead.malformed fallback = fallback) :=
  ⟨fun _ => ⟨rfl, rfl, rfl⟩, fun _ _ => ⟨rfl, rfl, rfl⟩⟩

/-- C9: when no stored record carries the requested id,
`setBookingStatus` and `assignCageToCheckin` return `null` and
`checkOutCheckin` returns without effect, each leaving the stored
collection unchanged instead of raising an error. -/
theorem C9_miss_is_noop :
    ∀ (bs : List BookingRecord) (cs : List CheckinRecord) (id st : String)
      (cage : Option String),
      (∀ r ∈ bs, r.id ≠ id) → (∀ c ∈ cs, c.id ≠ id) →
      setBookingStatus bs id st = (none, bs) ∧
      checkOutCheckin cs id = cs ∧
      assignCageToCheckin cs id cage = (none, cs) := by
  intro bs cs id st cage hb hc
  exact ⟨setBookingStatus_miss bs id st hb, checkOutCheckin_miss cs id hc,
    assignCageToCheckin_miss cs id cage hc⟩

/-- Witness for C9 on one-record stores and a missing id. -/
theorem C9_miss_is_noop_witness :
    setBookingStatus [sampleJanBooking] "missing-id" "cancelled" =
      (none, [sampleJanBooking]) ∧
    checkOutCheckin [sampleJanStay] "missing-id" = [sampleJanStay] ∧
    assignCageToCheckin [sampleJanStay] "missing-id" (some "g1") =
      (none, [sampleJanStay]) :=
  C9_miss_is_noop [sampleJanBooking] [sampleJanStay] "missing-id" "cancelled"
    (some "g1") (by decide) (by decide)

/-- C10: when either bound of the range fails to parse as a date the
enumerated day list is empty; likewise when the parsed start date is after
the parsed end date.  An empty day list makes `getCapacityForRange` return
`[]` and makes `hasCapacityForBooking` return true for candidates with
non-empty date strings (the gate passes them regardless of stored
occupancy); only an empty `checkIn` or `checkOut` makes
`hasCapacityForBooking` return false for such degenerate candidates. -/
theorem C10_degenerate_ranges :
    (∀ s e : String, (parseDate s = none ∨ parseDate e = none) → eachDay s e = []) ∧
    (∀ (s e : String) (a c : Nat × Nat × Nat), parseDate s = some a →
        parseDate e = some c → daysFromCivil c < daysFromCivil a → eachDay s e = []) ∧
    (∀ (bs : List BookingRecord) (cs : List CheckinRecord) (kId s e : String),
        eachDay s e = [] → getCapacityForRange bs cs kId s e = []) ∧
    (∀ (bs : List BookingRecord) (cs : List CheckinRecord) (kId : String)
        (b : BookingRecord), b.checkIn ≠ "" → b.checkOut ≠ "" →
        eachDay b.checkIn b.checkOut = [] → hasCapacityForBooking bs cs kId b = true) ∧
    (∀ (bs : List BookingRecord) (cs : List CheckinRecord) (kId : String)
        (b : BookingRecord), b.checkIn = "" ∨ b.checkOut = "" →
        hasCapacityForBooking bs cs kId b = false) := by
  refine ⟨?_, ?_, ?_, ?_, ?_⟩
  · intro s e h
    rcases h with h | h
    · cases he : parseDate e <;> simp [eachDay, h, he]
    · cases hs : parseDate s <;> simp [eachDay, hs, h]
  · intro s e a c hs hc hlt
    unfold eachDay
    rw [hs, hc]
    simp only
    rw [if_neg (by omega)]
  · intro bs cs kId s e h
    simp [getCapacityForRange, h]
  · intro bs cs kId b h1 h2 h0
    unfold hasCapacityForBooking
    rw [if_neg (by tauto)]
    simp [getCapacityForRange, h0]
  · intro bs cs kId b h
    unfold hasCapacityForBooking
    rw [if_pos h]

/-- Witness for C10: unparsable strings, an inverted range, and an empty
`checkIn`, each at concrete inputs. -/
theorem C10_degenerate_ranges_witness :
    eachDay "not-a-date" "2024-03-01" = [] ∧
    eachDay "2024-03-02" "2024-03-01" = [] ∧
    getCapacityForRange [sampleJanBooking] [sampleJanStay] KENNEL_ID
      "not-a-date" "2024-03-01" = [] ∧
    hasCapacityForBooking [sampleJan6Booking] [] KENNEL_ID unparsableCandidate = true ∧
    hasCapacityForBooking [sampleJan6Booking] [] KENNEL_ID emptyCheckInCandidate = false :=
  ⟨C10_degenerate_ranges.1 "not-a-date" "2024-03-01" (Or.inl (by decide)),
    C10_degenerate_ranges.2.1 "2024-03-02" "2024-03-01" (2024, 3, 2) (2024, 3, 1)
      (by decide) (by decide) (by decide),
    C10_degenerate_ranges.2.2.1 [sampleJanBooking] [sampleJanStay] KENNEL_ID
      "not-a-date" "2024-03-01" (by decide),
    C10_degenerate_ranges.2.2.2.1 [sampleJan6Booking] [] KENNEL_ID unparsableCandidate
      (by decide) (by decide) (by decide),
    C10_degenerate_ranges.2.2.2.2 [sampleJan6Booking] [] KENNEL_ID emptyCheckInCandidate
      (Or.inl (by decide))⟩

end Dyrepension
